import Mathlib

/-!
Shallow embedding of the core of `src/app/api/screenshot/route.ts` from the
web_monitoring repository: the per-website check pipeline (liveness probe,
TLS certificate inspection, page capture) and the batch POST handler that
reconciles the three signals into one `ScreenshotResult` per website.

Modelling conventions:
- Network and browser effects are replaced by explicit outcome parameters
  (`FetchOutcome`, `CertOutcome`, `CaptureOutcome`): each constructor is one
  of the exit paths the TypeScript code distinguishes.
- JavaScript `Date` instants are epoch milliseconds (`Int`).  The
  `toISOString().split(T)[0]` day strings are represented by the UTC epoch
  day number `ms.fdiv msPerDay`, which determines the YYYY-MM-DD string
  uniquely; no claim depends on the textual format.
- Optional TS fields become `Option`; `null || undefined` collapses to `none`.
- `takeScreenshot` returns, besides its result, whether a browser instance
  was launched and whether it was closed, making the try/catch/finally
  control flow of the source explicit.
-/

namespace WebMonitoring

/-- Input record supplied by the website registry: `{ id, url }`. -/
structure Website where
  id : Int
  url : String
deriving Repr, DecidableEq

/-- Liveness classification, the `status` field of the route. -/
inductive Status
  | up
  | down
  | error
deriving Repr, DecidableEq

/-- The `ScreenshotResult` record type of route.ts (lines 8-19). -/
structure ScreenshotResult where
  id : Int
  url : String
  screenshot_path : Option String
  status : Status
  ssl_valid : Bool
  ssl_expires : Option Int
  ssl_days_remaining : Option Int
  ssl_issued_date : Option Int
  response_time : Option Nat
  error_message : Option String
deriving Repr, DecidableEq

/-- Return type of `getSSLCertificateInfo` (route.ts lines 27-32). -/
structure SSLInfo where
  ssl_valid : Bool
  ssl_expires : Option Int := none
  ssl_days_remaining : Option Int := none
  ssl_issued_date : Option Int := none
deriving Repr, DecidableEq

/-- Exit paths of the TLS inspection socket in `getSSLCertificateInfo`:
either the handshake completed and `getPeerCertificate` produced a
certificate with parseable `valid_from` / `valid_to` instants (epoch ms),
or one of the failure paths of lines 47-51, 69-76 fired. -/
inductive CertOutcome
  | noCert
  | socketError
  | timeout
  | cert (valid_from : Int) (valid_to : Int)
deriving Repr, DecidableEq

/-- Milliseconds per day, the `1000 * 60 * 60 * 24` of route.ts line 58. -/
def msPerDay : Int := 1000 * 60 * 60 * 24

/-- The test url.startsWith("https://") used at route.ts lines 35, 109 and
220, phrased on the character list (the first eight characters equal the
characters of "https://", which for this fixed all-ASCII literal is exactly
the JS startsWith test) so that it evaluates by kernel reduction. -/
def isHttps (url : String) : Bool := decide (url.data.take 8 = "https://".data)

/-- The message.substring(0, 100) truncation of route.ts line 119, phrased
on the character list (equal to the JS operation for strings without
surrogate pairs) so that it evaluates by kernel reduction. -/
def truncate100 (message : String) : String := String.mk (message.data.take 100)

/-- `getSSLCertificateInfo` (route.ts lines 27-81).  Non-https URLs
short-circuit to `ssl_valid = false` with no dates; every socket failure
path resolves to the same; a parseable certificate yields the validity
check `validFrom <= now <= validTo`, the floor day count until expiry, and
the two day-granularity dates. -/
def getSSLCertificateInfo (url : String) (now : Int) (o : CertOutcome) : SSLInfo :=
  if ¬ isHttps url then { ssl_valid := false }
  else
    match o with
    | .cert valid_from valid_to =>
        { ssl_valid := decide (valid_from ≤ now ∧ now ≤ valid_to)
          ssl_expires := some (valid_to.fdiv msPerDay)
          ssl_days_remaining := some ((valid_to - now).fdiv msPerDay)
          ssl_issued_date := some (valid_from.fdiv msPerDay) }
    | _ => { ssl_valid := false }

/-- Exit paths of the `fetch` call in `checkWebsiteStatus`: a response was
received (with `response.ok` recorded), the 30 s AbortController timeout
fired, or some other transport failure was thrown whose `message` string is
carried (the empty string models a failure with no description, the falsy
case of route.ts line 118). -/
inductive FetchOutcome
  | response (ok : Bool)
  | abortError
  | otherError (message : String)
deriving Repr, DecidableEq

/-- Return type of `checkWebsiteStatus` (route.ts lines 83-88). -/
structure StatusCheck where
  status : Status
  ssl_valid : Bool
  response_time : Option Nat
  error_message : Option String
deriving Repr, DecidableEq

/-- `checkWebsiteStatus` (route.ts lines 83-129).  `rt` is the measured
elapsed time `Date.now() - startTime`. -/
def checkWebsiteStatus (url : String) (o : FetchOutcome) (rt : Nat) : StatusCheck :=
  match o with
  | .response ok =>
      { status := if ok then .up else .down
        ssl_valid := isHttps url && ok
        response_time := some rt
        error_message := none }
  | .abortError =>
      { status := .error
        ssl_valid := false
        response_time := some rt
        error_message := some "Request timeout" }
  | .otherError message =>
      { status := .error
        ssl_valid := false
        response_time := some rt
        error_message :=
          some (if message = "" then "Connection failed" else truncate100 message) }

/-- Exit paths of `takeScreenshot`: the browser launch itself failed, some
step after a successful launch failed (newPage, goto timeout, screenshot),
or everything succeeded and the file was written at `Date.now()` value
`capturedAt`. -/
inductive CaptureOutcome
  | launchFail
  | pageFail
  | ok (capturedAt : Nat)
deriving Repr, DecidableEq

/-- Observable outcome of one `takeScreenshot` invocation: the returned
value, whether `chromium.launch` succeeded (so `browser` was assigned), and
whether the `finally` block closed it. -/
structure CaptureRun where
  result : Option String
  browserLaunched : Bool
  browserClosed : Bool
deriving Repr, DecidableEq

/-- `takeScreenshot` (route.ts lines 131-182).  The catch block returns
`null` on any failure; the finally block closes the browser whenever the
`browser` variable was assigned, i.e. whenever the launch succeeded. -/
def takeScreenshot (url : String) (id : Int) (o : CaptureOutcome) : CaptureRun :=
  match o with
  | .launchFail => { result := none, browserLaunched := false, browserClosed := false }
  | .pageFail => { result := none, browserLaunched := true, browserClosed := true }
  | .ok capturedAt =>
      { result := some ("/screenshots/" ++ toString id ++ "_" ++ toString capturedAt ++ ".png")
        browserLaunched := true
        browserClosed := true }

/-- The environment one loop iteration of POST observes for one website:
the fetch outcome and its elapsed time, the clock value read by the
certificate inspector, the certificate outcome, and the capture outcome. -/
structure SiteEnv where
  fetch : FetchOutcome
  fetchTime : Nat
  now : Int
  cert : CertOutcome
  capture : CaptureOutcome

/-- One iteration of the POST loop body (route.ts lines 198-237):
run the three probes, apply the two override rules, assemble the result. -/
def processWebsite (w : Website) (env : SiteEnv) : ScreenshotResult :=
  let statusCheck := checkWebsiteStatus w.url env.fetch env.fetchTime
  let sslInfo := getSSLCertificateInfo w.url env.now env.cert
  let screenshot_path := (takeScreenshot w.url w.id env.capture).result
  let finalStatus :=
    if screenshot_path.isSome = true ∧ statusCheck.status ≠ Status.up then Status.up
    else statusCheck.status
  let finalSSLValid :=
    if sslInfo.ssl_valid = false ∧ screenshot_path.isSome = true
        ∧ isHttps w.url = true then true
    else sslInfo.ssl_valid
  { id := w.id
    url := w.url
    screenshot_path := screenshot_path
    status := finalStatus
    ssl_valid := finalSSLValid
    ssl_expires := sslInfo.ssl_expires
    ssl_days_remaining := sslInfo.ssl_days_remaining
    ssl_issued_date := sslInfo.ssl_issued_date
    response_time := statusCheck.response_time
    error_message := if screenshot_path.isSome then none else statusCheck.error_message }

/-- The `websites` field of the parsed request body, as the validation of
route.ts line 188 distinguishes it: absent or falsy, present but not an
array, or an actual array. -/
inductive WebsitesField
  | missing
  | notArray
  | array (websites : List Website)
deriving Repr, DecidableEq

/-- Response of the POST handler: either the 400 client error of lines
189-192 or the JSON result list of line 240. -/
inductive PostResponse
  | clientError (code : Nat) (message : String)
  | ok (results : List ScreenshotResult)
deriving Repr, DecidableEq

/-- The POST handler (route.ts lines 184-248).  Besides the response it
returns the list of URLs the loop probed, in order, so that the statement
that rejection happens before any probing is expressible.  The catch-all
500 path of lines 241-247 never fires in this pure model because no probe
raises past its boundary. -/
def POST (field : WebsitesField) (env : Website → SiteEnv) :
    PostResponse × List String :=
  match field with
  | .array websites =>
      if websites.isEmpty then (.clientError 400 "No websites provided", [])
      else
        (.ok (websites.map fun w => processWebsite w (env w)),
          websites.map fun w => w.url)
  | _ => (.clientError 400 "No websites provided", [])

/-- Concrete website used by witnesses: an https URL. -/
def siteA : Website := { id := 1, url := "https://example.com" }

/-- Concrete website with a plain http URL. -/
def siteB : Website := { id := 2, url := "http://example.org" }

/-- Environment where the probe got a non-success response, the certificate
is expired (window [day 0, day 5], clock at day 10), and capture succeeded. -/
def envExpiredCapOk : SiteEnv :=
  { fetch := .response false
    fetchTime := 120
    now := 10 * msPerDay
    cert := .cert 0 (5 * msPerDay)
    capture := .ok 42 }

/-- Environment where everything failed: fetch timeout, socket error,
launch failure. -/
def envAllFail : SiteEnv :=
  { fetch := .abortError
    fetchTime := 30000
    now := 0
    cert := .socketError
    capture := .launchFail }

/-- Environment with a successful probe, a currently valid certificate
(window [day 0, day 100], clock at day 10), and a successful capture. -/
def envAllOk : SiteEnv :=
  { fetch := .response true
    fetchTime := 85
    now := 10 * msPerDay
    cert := .cert 0 (100 * msPerDay)
    capture := .ok 7 }

/-- C1: for every non-empty input list accepted by the batch POST, the
output result list has the same length as the input, results appear in
input order, and each result id and url equal the id and url of the
corresponding input record. -/
theorem post_preserves_length_order_id_url
    (ws : List Website) (env : Website → SiteEnv) (h : ws ≠ []) :
    ∃ rs, (POST (.array ws) env).1 = .ok rs ∧
      rs.length = ws.length ∧
      rs.map (fun r => r.id) = ws.map (fun w => w.id) ∧
      rs.map (fun r => r.url) = ws.map (fun w => w.url) := by
  refine ⟨ws.map fun w => processWebsite w (env w), ?_, ?_, ?_, ?_⟩
  · simp [POST, h]
  · simp
  · simp [List.map_map]
    exact fun w _ => rfl
  · simp [List.map_map]
    exact fun w _ => rfl

/-- C1 witness: at a concrete one-element list the batch output is the
expected singleton with matching id and url. -/
theorem post_preserves_length_order_id_url_witness :
    ∃ rs, (POST (.array [siteA]) (fun _ => envAllOk)).1 = .ok rs ∧
      rs.length = [siteA].length ∧
      rs.map (fun r => r.id) = [siteA].map (fun w => w.id) ∧
      rs.map (fun r => r.url) = [siteA].map (fun w => w.url) :=
  post_preserves_length_order_id_url [siteA] (fun _ => envAllOk) (by simp)

/-- C2: the final status equals the Prober status, unless capture succeeded
and the Prober status was not up, in which case it is up; in particular
whenever capture succeeds the final status is up. -/
theorem final_status_override (w : Website) (env : SiteEnv) :
    ((processWebsite w env).status =
      if (takeScreenshot w.url w.id env.capture).result.isSome = true ∧
          (checkWebsiteStatus w.url env.fetch env.fetchTime).status ≠ Status.up
        then Status.up
        else (checkWebsiteStatus w.url env.fetch env.fetchTime).status)
    ∧ ((takeScreenshot w.url w.id env.capture).result.isSome = true →
        (processWebsite w env).status = Status.up) := by
  obtain ⟨f, rt, now, cert, cap⟩ := env
  constructor
  · rfl
  · intro hcap
    cases cap with
    | launchFail => simp [takeScreenshot] at hcap
    | pageFail => simp [takeScreenshot] at hcap
    | ok t =>
        cases f with
        | response rok => cases rok <;> rfl
        | abortError => rfl
        | otherError m => rfl

/-- C2 witness: with a non-success probe response and a successful capture,
the final status is up, matching the decision rule. -/
theorem final_status_override_witness :
    (processWebsite siteA envExpiredCapOk).status = Status.up :=
  (final_status_override siteA envExpiredCapOk).2 (by decide)

/-- C3 counterexample: the Inspector returned a determinate result (dates
present) whose value is false, because the certificate is expired, yet the
final sslValid is true because capture succeeded over https — so the final
sslValid does not equal the determinate Inspector result. -/
theorem ssl_determinate_not_respected :
    (getSSLCertificateInfo siteA.url envExpiredCapOk.now envExpiredCapOk.cert).ssl_expires.isSome
        = true ∧
    (getSSLCertificateInfo siteA.url envExpiredCapOk.now envExpiredCapOk.cert).ssl_valid
        = false ∧
    (processWebsite siteA envExpiredCapOk).ssl_valid = true := by decide

/-- Helper: the reconciled sslValid is the Inspector result OR-ed with
(capture succeeded AND https URL). -/
theorem final_ssl_valid_or (w : Website) (env : SiteEnv) :
    (processWebsite w env).ssl_valid =
      ((getSSLCertificateInfo w.url env.now env.cert).ssl_valid ||
        ((takeScreenshot w.url w.id env.capture).result.isSome && isHttps w.url)) := by
  simp only [processWebsite]
  cases hs : (getSSLCertificateInfo w.url env.now env.cert).ssl_valid <;>
    cases hc : (takeScreenshot w.url w.id env.capture).result.isSome <;>
      cases hh : isHttps w.url <;>
        simp [hs, hc, hh]

/-- C3 amended: the final sslValid is the Inspector result OR-ed with
(capture succeeded AND the URL uses https) — whenever the Inspector result
is false, determinate invalid included, a successful capture of an https
URL overrides it to true. -/
theorem final_ssl_valid_eq (w : Website) (env : SiteEnv) :
    (processWebsite w env).ssl_valid =
      ((getSSLCertificateInfo w.url env.now env.cert).ssl_valid ||
        ((takeScreenshot w.url w.id env.capture).result.isSome && isHttps w.url)) :=
  final_ssl_valid_or w env

/-- C4: sslValid = true in a result implies either the Inspector parsed a
certificate whose validity window contains the clock value (https URL), or
capture succeeded for an https URL; conversely a successful capture of an
https URL forces sslValid = true. -/
theorem ssl_valid_source (w : Website) (env : SiteEnv) :
    ((processWebsite w env).ssl_valid = true →
      (∃ vf vt, env.cert = .cert vf vt ∧ isHttps w.url = true ∧
          vf ≤ env.now ∧ env.now ≤ vt)
      ∨ ((takeScreenshot w.url w.id env.capture).result.isSome = true ∧
          isHttps w.url = true))
    ∧ (((takeScreenshot w.url w.id env.capture).result.isSome = true ∧
          isHttps w.url = true) →
        (processWebsite w env).ssl_valid = true) := by
  constructor
  · intro hval
    rw [final_ssl_valid_or w env] at hval
    rcases Bool.or_eq_true_iff.mp hval with hins | hcap
    · left
      unfold getSSLCertificateInfo at hins
      by_cases hh : isHttps w.url = true
      · rw [if_neg (by simp [hh])] at hins
        cases hcert : env.cert with
        | cert vf vt =>
            refine ⟨vf, vt, rfl, hh, ?_⟩
            rw [hcert] at hins
            simpa using of_decide_eq_true hins
        | noCert => rw [hcert] at hins; simp at hins
        | socketError => rw [hcert] at hins; simp at hins
        | timeout => rw [hcert] at hins; simp at hins
      · rw [if_pos (by simpa using hh)] at hins
        simp at hins
    · right
      exact Bool.and_eq_true_iff.mp hcap
  · intro ⟨hcap, hh⟩
    rw [final_ssl_valid_or w env]
    simp [hcap, hh]

/-- C4 witness: for an https site with an expired certificate but a
successful capture, the reverse direction forces sslValid = true, and the
forward direction then locates the capture disjunct. -/
theorem ssl_valid_source_witness :
    ((∃ vf vt, envExpiredCapOk.cert = .cert vf vt ∧
        isHttps siteA.url = true ∧
        vf ≤ envExpiredCapOk.now ∧ envExpiredCapOk.now ≤ vt)
      ∨ ((takeScreenshot siteA.url siteA.id envExpiredCapOk.capture).result.isSome = true ∧
          isHttps siteA.url = true))
    ∧ (processWebsite siteA envExpiredCapOk).ssl_valid = true :=
  ⟨(ssl_valid_source siteA envExpiredCapOk).1 (by decide),
    (ssl_valid_source siteA envExpiredCapOk).2 (by decide)⟩

/-- C5: a batch request whose websites field is missing, not a list, or an
empty list is rejected with the 400 client error, no URL is probed, and no
results are produced. -/
theorem post_rejects_bad_input (env : Website → SiteEnv) :
    POST .missing env = (.clientError 400 "No websites provided", []) ∧
    POST .notArray env = (.clientError 400 "No websites provided", []) ∧
    POST (.array []) env = (.clientError 400 "No websites provided", []) :=
  ⟨rfl, rfl, rfl⟩

/-- C6 counterexample: a transport failure whose error object carries an
empty description yields errorMessage "Connection failed", which is not
the (empty) description truncated to 100 characters. -/
theorem liveness_empty_description :
    (checkWebsiteStatus "http://a" (.otherError "") 5).status = Status.error ∧
    (checkWebsiteStatus "http://a" (.otherError "") 5).error_message
        = some "Connection failed" ∧
    some "Connection failed" ≠ some (truncate100 "") := by decide

/-- C6 amended: a response with a success status yields up, a response with
a non-success status yields down, the abort timeout yields error with
errorMessage "Request timeout", and any other transport failure yields
error with errorMessage the failure description truncated to at most 100
characters when that description is non-empty, and "Connection failed"
when the failure carries no description. -/
theorem liveness_outcome_mapping (url : String) (rt : Nat) :
    (∀ rok : Bool,
      (checkWebsiteStatus url (.response rok) rt).status
          = (if rok then Status.up else Status.down) ∧
      (checkWebsiteStatus url (.response rok) rt).error_message = none)
    ∧ ((checkWebsiteStatus url .abortError rt).status = Status.error ∧
        (checkWebsiteStatus url .abortError rt).error_message = some "Request timeout")
    ∧ (∀ message : String, message ≠ "" →
        (checkWebsiteStatus url (.otherError message) rt).status = Status.error ∧
        (checkWebsiteStatus url (.otherError message) rt).error_message
            = some (truncate100 message))
    ∧ ((checkWebsiteStatus url (.otherError "") rt).status = Status.error ∧
        (checkWebsiteStatus url (.otherError "") rt).error_message
            = some "Connection failed") := by
  refine ⟨fun rok => ⟨rfl, rfl⟩, ⟨rfl, rfl⟩, fun message hm => ⟨rfl, ?_⟩, rfl, rfl⟩
  simp [checkWebsiteStatus, hm]

/-- C6 witness: a concrete non-empty failure description is reported
truncated, and the timeout branch reports "Request timeout". -/
theorem liveness_outcome_mapping_witness :
    ((checkWebsiteStatus "https://example.com" (.otherError "getaddrinfo ENOTFOUND") 9).status
        = Status.error ∧
      (checkWebsiteStatus "https://example.com" (.otherError "getaddrinfo ENOTFOUND") 9).error_message
        = some (truncate100 "getaddrinfo ENOTFOUND")) ∧
    (checkWebsiteStatus "https://example.com" FetchOutcome.abortError 30000).error_message
        = some "Request timeout" :=
  ⟨((liveness_outcome_mapping "https://example.com" 9).2.2.1
      "getaddrinfo ENOTFOUND" (by decide)),
    (liveness_outcome_mapping "https://example.com" 30000).2.1.2⟩

/-- C7: when the Inspector parses a certificate, sslDaysRemaining is the
floor of (expiry minus now) divided by one day, negative when the
certificate is already expired, and ssl_valid holds exactly when now lies
within the validity window. -/
theorem cert_days_and_validity (url : String) (now vf vt : Int)
    (h : isHttps url = true) :
    (getSSLCertificateInfo url now (.cert vf vt)).ssl_days_remaining
        = some ((vt - now).fdiv msPerDay)
    ∧ ((getSSLCertificateInfo url now (.cert vf vt)).ssl_valid = true ↔
        (vf ≤ now ∧ now ≤ vt))
    ∧ (vt < now →
        ∃ d, (getSSLCertificateInfo url now (.cert vf vt)).ssl_days_remaining = some d
          ∧ d < 0) := by
  refine ⟨?_, ?_, ?_⟩
  · simp [getSSLCertificateInfo, h]
  · simp [getSSLCertificateInfo, h]
  · intro hlt
    refine ⟨(vt - now).fdiv msPerDay, by simp [getSSLCertificateInfo, h], ?_⟩
    rw [Int.fdiv_eq_ediv _ (by decide : (0 : Int) ≤ msPerDay)]
    exact Int.ediv_neg' (by omega) (by decide)

/-- C7 witness: for a certificate that expired five days into the epoch
with the clock at day ten, sslDaysRemaining is the concrete negative floor
value and ssl_valid is false. -/
theorem cert_days_and_validity_witness :
    (getSSLCertificateInfo siteA.url (10 * msPerDay) (.cert 0 (5 * msPerDay))).ssl_days_remaining
        = some ((5 * msPerDay - 10 * msPerDay).fdiv msPerDay) ∧
    ∃ d, (getSSLCertificateInfo siteA.url (10 * msPerDay) (.cert 0 (5 * msPerDay))).ssl_days_remaining
        = some d ∧ d < 0 :=
  ⟨(cert_days_and_validity siteA.url (10 * msPerDay) 0 (5 * msPerDay) (by decide)).1,
    (cert_days_and_validity siteA.url (10 * msPerDay) 0 (5 * msPerDay) (by decide)).2.2
      (by decide)⟩

/-- C8: errorMessage is present only when capture failed; a successful
capture suppresses any Prober error; when capture failed the errorMessage
is exactly the Prober error message, hence absent whenever the probe got a
response (status up or down). -/
theorem error_message_policy (w : Website) (env : SiteEnv) :
    ((processWebsite w env).error_message.isSome = true →
      (takeScreenshot w.url w.id env.capture).result = none)
    ∧ ((takeScreenshot w.url w.id env.capture).result.isSome = true →
        (processWebsite w env).error_message = none)
    ∧ ((takeScreenshot w.url w.id env.capture).result = none →
        (processWebsite w env).error_message =
          (checkWebsiteStatus w.url env.fetch env.fetchTime).error_message)
    ∧ (∀ rok : Bool, env.fetch = .response rok →
        (processWebsite w env).error_message = none) := by
  obtain ⟨f, rt, now, cert, cap⟩ := env
  refine ⟨?_, ?_, ?_, ?_⟩
  · intro hmsg
    cases cap with
    | launchFail => rfl
    | pageFail => rfl
    | ok t => simp [processWebsite, takeScreenshot] at hmsg
  · intro hcap
    cases cap with
    | launchFail => simp [takeScreenshot] at hcap
    | pageFail => simp [takeScreenshot] at hcap
    | ok t => rfl
  · intro hnone
    cases cap with
    | launchFail => rfl
    | pageFail => rfl
    | ok t => simp [takeScreenshot] at hnone
  · intro rok hf
    subst hf
    cases cap with
    | launchFail => rfl
    | pageFail => rfl
    | ok t => rfl

/-- C8 witness: with every probe failing and the browser launch failing
the errorMessage is present and capture indeed returned null, while with a
successful probe response and capture the errorMessage is absent. -/
theorem error_message_policy_witness :
    (takeScreenshot siteB.url siteB.id envAllFail.capture).result = none ∧
    (processWebsite siteA envAllOk).error_message = none :=
  ⟨(error_message_policy siteB envAllFail).1 (by decide),
    (error_message_policy siteA envAllOk).2.2.2 true rfl⟩

/-- C9: every takeScreenshot invocation that launched a browser closes it
on every exit path, and on both failure paths the returned result is
absent. -/
theorem capture_teardown (url : String) (id : Int) (o : CaptureOutcome) :
    ((takeScreenshot url id o).browserLaunched = true →
      (takeScreenshot url id o).browserClosed = true)
    ∧ ((o = .launchFail ∨ o = .pageFail) → (takeScreenshot url id o).result = none) := by
  cases o <;> simp [takeScreenshot]

/-- C9 witness: on the post-launch failure path the browser is closed and
the result is absent. -/
theorem capture_teardown_witness :
    (takeScreenshot siteA.url siteA.id CaptureOutcome.pageFail).browserClosed = true ∧
    (takeScreenshot siteA.url siteA.id CaptureOutcome.pageFail).result = none :=
  ⟨(capture_teardown siteA.url siteA.id .pageFail).1 (by decide),
    (capture_teardown siteA.url siteA.id .pageFail).2 (Or.inr rfl)⟩

/-- C10: the three certificate fields of every result are copied verbatim
from the Inspector, and they are either all present (parseable certificate
over https) or all absent (non-https URL or any Inspector failure). -/
theorem ssl_fields_all_or_none (w : Website) (env : SiteEnv) :
    ((processWebsite w env).ssl_expires
        = (getSSLCertificateInfo w.url env.now env.cert).ssl_expires
      ∧ (processWebsite w env).ssl_issued_date
        = (getSSLCertificateInfo w.url env.now env.cert).ssl_issued_date
      ∧ (processWebsite w env).ssl_days_remaining
        = (getSSLCertificateInfo w.url env.now env.cert).ssl_days_remaining)
    ∧ (((processWebsite w env).ssl_expires.isSome = true ∧
        (processWebsite w env).ssl_issued_date.isSome = true ∧
        (processWebsite w env).ssl_days_remaining.isSome = true)
      ∨ ((processWebsite w env).ssl_expires = none ∧
          (processWebsite w env).ssl_issued_date = none ∧
          (processWebsite w env).ssl_days_remaining = none)) := by
  refine ⟨⟨rfl, rfl, rfl⟩, ?_⟩
  cases hh : isHttps w.url with
  | false =>
      right
      simp [processWebsite, getSSLCertificateInfo, hh]
  | true =>
      cases hc : env.cert with
      | cert vf vt =>
          left
          simp [processWebsite, getSSLCertificateInfo, hh, hc]
      | noCert =>
          right
          simp [processWebsite, getSSLCertificateInfo, hh, hc]
      | socketError =>
          right
          simp [processWebsite, getSSLCertificateInfo, hh, hc]
      | timeout =>
          right
          simp [processWebsite, getSSLCertificateInfo, hh, hc]

end WebMonitoring
